import Mathlib

set_option maxHeartbeats 1000000

/-!
Verification development for the claude-web-state hook script
(src/server/resources/claude-web-state.py).

The script reads one JSON object from standard input, classifies it by its
hook_event_name field, builds a canonical outbound event record, and sends it
over a local socket; for PermissionRequest it blocks on a decision reply and
translates the decision into stdout output and an exit code.

The shallow embedding below models the decoded JSON universe, the Python dict
operations the script uses, the socket channel as an explicit environment, and
the main function as a pure function from those inputs to an observable result
(exit outcome, stdout lines, outbound sends, channel reads).
-/

/-- JSON values as decoded by the Python json module, restricted to the shapes
this program manipulates (numbers are modelled as integers; Python None is
JValue.null). -/
inductive JValue where
  | null : JValue
  | bool (b : Bool) : JValue
  | num (n : Int) : JValue
  | str (s : String) : JValue
  | arr (items : List JValue) : JValue
  | obj (fields : List (String × JValue)) : JValue

/-- Python dict lookup, dict.get k, returning none when the key is absent.
Decoded json objects have unique keys (the last duplicate wins during
decoding), so the last matching binding is returned. -/
def dget (d : List (String × JValue)) (k : String) : Option JValue :=
  ((d.filter (fun kv => kv.1 == k)).getLast?).map (fun kv => kv.2)

/-- Python dict assignment d[k] = v: replaces the binding in place when the key
exists, appends a new binding otherwise (Python dicts preserve insertion
order). -/
def dset (d : List (String × JValue)) (k : String) (v : JValue) :
    List (String × JValue) :=
  if d.any (fun kv => kv.1 == k) then
    d.map (fun kv => if kv.1 == k then (k, v) else kv)
  else d ++ [(k, v)]

/-- Python truthiness of a decoded json value. -/
def truthy : JValue → Bool
  | .null => false
  | .bool b => b
  | .num n => n != 0
  | .str s => s != ""
  | .arr items => !items.isEmpty
  | .obj fields => !fields.isEmpty

/-- Python equality comparison of a decoded json value against a string
literal: true exactly for an equal string (a non-string value is never equal
to a string in Python). -/
def JValue.eqStr : JValue → String → Bool
  | .str a, b => a == b
  | _, _ => false

mutual

/-- Python repr of a decoded json value (used transitively by str on
containers). String escaping inside container renderings is not needed by any
claim and is rendered plainly. -/
def pyRepr : JValue → String
  | .null => "None"
  | .bool true => "True"
  | .bool false => "False"
  | .num n => toString n
  | .str s => "'" ++ s ++ "'"
  | .arr items => "[" ++ pyReprItems items ++ "]"
  | .obj fields => "\x7b" ++ pyReprFields fields ++ "\x7d"

/-- Comma-separated repr of list items. -/
def pyReprItems : List JValue → String
  | [] => ""
  | [v] => pyRepr v
  | v :: vs => pyRepr v ++ ", " ++ pyReprItems vs

/-- Comma-separated repr of dict fields. -/
def pyReprFields : List (String × JValue) → String
  | [] => ""
  | [(k, v)] => "'" ++ k ++ "': " ++ pyRepr v
  | (k, v) :: kvs => "'" ++ k ++ "': " ++ pyRepr v ++ ", " ++ pyReprFields kvs

end

/-- Python str of a decoded json value, as interpolated by the f-string at
line 192 of the script: a string interpolates as itself, anything else as its
repr-style rendering. -/
def pyStr : JValue → String
  | .str s => s
  | v => pyRepr v

/-- Fixed socket path constant of the script (line 12). -/
def SOCKET_PATH : String := "/tmp/claude-web.sock"

/-- Fixed timeout constant of the script (line 13), in seconds. -/
def TIMEOUT_SECONDS : Nat := 300

/-- Ambient inputs of get_tty: the captured stdout of the ps invocation (none
when subprocess.run raised), and the results of os.ttyname on the stdin and
stdout file descriptors (none when the call raised). -/
structure TtyEnv where
  psOut : Option String
  stdinTty : Option String
  stdoutTty : Option String

/-- Model of get_tty (lines 16 to 49): try the trimmed ps output for the
parent pid, rejecting empty, "??" and "-" and prefixing "/dev/" when missing;
otherwise fall back to os.ttyname of stdin, then of stdout, then None. -/
def get_tty (env : TtyEnv) : Option String :=
  let fallback :=
    match env.stdinTty with
    | some t => some t
    | none =>
      match env.stdoutTty with
      | some t => some t
      | none => none
  match env.psOut with
  | none => fallback
  | some out =>
    let tty := out.trim
    if tty ≠ "" ∧ tty ≠ "??" ∧ tty ≠ "-" then
      some (if tty.startsWith "/dev/" then tty else "/dev/" ++ tty)
    else fallback

/-- Outcome of the single recv call on the socket, when one is made: a timeout
or socket error, an empty byte string, nonempty bytes that fail json parsing,
or nonempty bytes decoding to a json value. -/
inductive RecvOutcome where
  | err : RecvOutcome
  | empty : RecvOutcome
  | malformed : RecvOutcome
  | value (v : JValue) : RecvOutcome

/-- Behaviour of the monitor channel during one invocation: whether the
connect and sendall calls succeed, and what a recv call would observe. -/
structure Channel where
  sendOk : Bool
  recv : RecvOutcome

/-- Observable result of one send_event call: the Python return value (none
for the Python None result), how many recv calls were attempted, and the
timeout installed on the socket by settimeout (none would mean no explicit
timeout was installed). -/
structure SendResult where
  ret : Option JValue
  reads : Nat
  timeoutApplied : Option Nat

/-- Model of send_event (lines 52 to 71): create the socket, install
TIMEOUT_SECONDS via settimeout, connect and send the record followed by a
newline; when the record's event_type equals "waiting_for_approval" attempt
one recv and parse a nonempty response, otherwise close without reading; every
socket, OS or json error yields the Python None result. The settimeout call
precedes connect, so the timeout is installed even when the connection then
fails. -/
def send_event (ch : Channel) (event_data : List (String × JValue)) :
    SendResult :=
  if ch.sendOk = false then ⟨none, 0, some TIMEOUT_SECONDS⟩
  else if ((dget event_data "event_type").getD .null).eqStr
      "waiting_for_approval" then
    match ch.recv with
    | .err => ⟨none, 1, some TIMEOUT_SECONDS⟩
    | .empty => ⟨none, 1, some TIMEOUT_SECONDS⟩
    | .malformed => ⟨none, 1, some TIMEOUT_SECONDS⟩
    | .value v => ⟨some v, 1, some TIMEOUT_SECONDS⟩
  else ⟨none, 0, some TIMEOUT_SECONDS⟩

/-- Termination of one invocation: a sys.exit with the given code, or an
uncaught exception (abnormal termination, distinct from the defined exits). -/
inductive Outcome where
  | exit (code : Nat) : Outcome
  | crash : Outcome

/-- Observable behaviour of one invocation of main: termination outcome, the
json objects printed to stdout (one line each), the outbound records passed to
send_event, and the number of recv calls attempted on the channel. -/
structure RunResult where
  outcome : Outcome
  stdout : List JValue
  sends : List (List (String × JValue))
  reads : Nat

/-- Structured stdout object emitted on an allow decision (lines 134 to 140). -/
def allowOutput : JValue :=
  .obj [("hookSpecificOutput",
    .obj [("hookEventName", .str "PermissionRequest"),
          ("decision", .obj [("behavior", .str "allow")])])]

/-- Fixed default denial message (line 150). -/
def DEFAULT_DENY_MESSAGE : String := "Denied by user via Claude Web Monitor"

/-- Structured stdout object emitted on a deny decision (lines 145 to 153). -/
def denyOutput (msg : JValue) : JValue :=
  .obj [("hookSpecificOutput",
    .obj [("hookEventName", .str "PermissionRequest"),
          ("decision", .obj [("behavior", .str "deny"), ("message", msg)])])]

/-- The PermissionRequest branch of main after the outbound record ed is built
(lines 126 to 158): send and await the decision; a truthy mapping response is
consulted for its decision field (default "ask") and reason field (default the
empty string); allow and deny print one structured line and exit 0; anything
else exits 0 silently; a truthy non-mapping response makes the .get attribute
access raise (crash). -/
def permissionOutcome (ch : Channel) (ed : List (String × JValue)) : RunResult :=
  let sres := send_event ch ed
  match sres.ret with
  | some resp =>
    if truthy resp then
      match resp with
      | .obj r =>
        let decision := (dget r "decision").getD (.str "ask")
        let reason := (dget r "reason").getD (.str "")
        if decision.eqStr "allow" then
          ⟨.exit 0, [allowOutput], [ed], sres.reads⟩
        else if decision.eqStr "deny" then
          ⟨.exit 0,
           [denyOutput (if truthy reason then reason
                        else .str DEFAULT_DENY_MESSAGE)],
           [ed], sres.reads⟩
        else ⟨.exit 0, [], [ed], sres.reads⟩
      | _ => ⟨.crash, [], [ed], sres.reads⟩
    else ⟨.exit 0, [], [ed], sres.reads⟩
  | none => ⟨.exit 0, [], [ed], sres.reads⟩

/-- Tail of main for every non-PermissionRequest dispatch (line 195): one
fire-and-forget send_event call whose result is discarded, then the implicit
successful exit. -/
def fireForget (ch : Channel) (ed : List (String × JValue)) : RunResult :=
  ⟨.exit 0, [], [ed], (send_event ch ed).reads⟩

/-- Model of main (lines 74 to 195) as a function of its external inputs: the
parsed standard input (none when json.load raised JSONDecodeError), the parent
pid, the ambient tty environment, and the channel behaviour. A top-level json
value that is not an object makes the .get attribute accesses raise (crash). -/
def run (stdin : Option JValue) (pid : Int) (env : TtyEnv) (ch : Channel) :
    RunResult :=
  match stdin with
  | none => ⟨.exit 1, [], [], 0⟩
  | some data =>
    match data with
    | .obj d =>
      let session_id := (dget d "session_id").getD (.str "unknown")
      let event := (dget d "hook_event_name").getD (.str "")
      let cwd := (dget d "cwd").getD (.str "")
      let tool_input := (dget d "tool_input").getD (.obj [])
      let tty := get_tty env
      let event_data : List (String × JValue) :=
        [("session_id", session_id), ("cwd", cwd), ("pid", .num pid),
         ("tty", match tty with | some s => .str s | none => .null)]
      if event.eqStr "UserPromptSubmit" then
        fireForget ch (dset event_data "event_type" (.str "processing"))
      else if event.eqStr "PreToolUse" then
        let ed := dset event_data "event_type" (.str "running_tool")
        let ed := dset ed "tool_name" ((dget d "tool_name").getD .null)
        let ed := dset ed "tool_input" tool_input
        let tool_use_id := (dget d "tool_use_id").getD .null
        fireForget ch
          (if truthy tool_use_id then dset ed "tool_use_id" tool_use_id else ed)
      else if event.eqStr "PostToolUse" then
        let ed := dset event_data "event_type" (.str "processing")
        let ed := dset ed "tool_name" ((dget d "tool_name").getD .null)
        let ed := dset ed "tool_input" tool_input
        let tool_use_id := (dget d "tool_use_id").getD .null
        fireForget ch
          (if truthy tool_use_id then dset ed "tool_use_id" tool_use_id else ed)
      else if event.eqStr "PermissionRequest" then
        let ed := dset event_data "event_type" (.str "waiting_for_approval")
        let ed := dset ed "tool_name" ((dget d "tool_name").getD .null)
        let ed := dset ed "tool_input" tool_input
        permissionOutcome ch ed
      else if event.eqStr "Notification" then
        let notification_type := (dget d "notification_type").getD .null
        if notification_type.eqStr "permission_prompt" then
          ⟨.exit 0, [], [], 0⟩
        else
          let ed :=
            if notification_type.eqStr "idle_prompt" then
              dset event_data "event_type" (.str "waiting_for_input")
            else
              dset event_data "event_type" (.str "notification")
          let ed := dset ed "title" notification_type
          let ed := dset ed "message" ((dget d "message").getD .null)
          fireForget ch ed
      else if event.eqStr "Stop" then
        fireForget ch (dset event_data "event_type" (.str "waiting_for_input"))
      else if event.eqStr "SubagentStop" then
        fireForget ch (dset event_data "event_type" (.str "waiting_for_input"))
      else if event.eqStr "SessionStart" then
        fireForget ch (dset event_data "event_type" (.str "session_start"))
      else if event.eqStr "SessionEnd" then
        fireForget ch (dset event_data "event_type" (.str "session_end"))
      else if event.eqStr "PreCompact" then
        fireForget ch (dset event_data "event_type" (.str "compacting"))
      else
        let ed := dset event_data "event_type" (.str "notification")
        let ed := dset ed "message"
          (.str ("Unknown event: " ++ pyStr event))
        fireForget ch ed
    | _ => ⟨.crash, [], [], 0⟩

/-- Modelled from the spec: the dispatch table of section 4.1 (as amended),
mapping each inbound hook name to its canonical event_type and the extra
fields appended after the base fields. The value is the list of outbound
records the invocation sends: empty for the suppressed Notification subtype,
a single record otherwise. -/
def specTableSends (d : List (String × JValue)) (pid : Int)
    (tty : Option String) : List (List (String × JValue)) :=
  let base : List (String × JValue) :=
    [("session_id", (dget d "session_id").getD (.str "unknown")),
     ("cwd", (dget d "cwd").getD (.str "")),
     ("pid", .num pid),
     ("tty", match tty with | some s => .str s | none => .null)]
  let toolFields : List (String × JValue) :=
    [("tool_name", (dget d "tool_name").getD .null),
     ("tool_input", (dget d "tool_input").getD (.obj []))]
  let useId := (dget d "tool_use_id").getD .null
  let useIdField : List (String × JValue) :=
    if truthy useId then [("tool_use_id", useId)] else []
  let notifFields : List (String × JValue) :=
    [("title", (dget d "notification_type").getD .null),
     ("message", (dget d "message").getD .null)]
  let unknownRow (name : String) : List (List (String × JValue)) :=
    [base ++ [("event_type", .str "notification"),
              ("message", .str ("Unknown event: " ++ name))]]
  match (dget d "hook_event_name").getD (.str "") with
  | .str name =>
    if name = "UserPromptSubmit" then
      [base ++ [("event_type", .str "processing")]]
    else if name = "PreToolUse" then
      [base ++ [("event_type", .str "running_tool")] ++ toolFields ++ useIdField]
    else if name = "PostToolUse" then
      [base ++ [("event_type", .str "processing")] ++ toolFields ++ useIdField]
    else if name = "PermissionRequest" then
      [base ++ [("event_type", .str "waiting_for_approval")] ++ toolFields]
    else if name = "Notification" then
      if ((dget d "notification_type").getD .null).eqStr "permission_prompt" then
        []
      else if ((dget d "notification_type").getD .null).eqStr "idle_prompt" then
        [base ++ [("event_type", .str "waiting_for_input")] ++ notifFields]
      else
        [base ++ [("event_type", .str "notification")] ++ notifFields]
    else if name = "Stop" then
      [base ++ [("event_type", .str "waiting_for_input")]]
    else if name = "SubagentStop" then
      [base ++ [("event_type", .str "waiting_for_input")]]
    else if name = "SessionStart" then
      [base ++ [("event_type", .str "session_start")]]
    else if name = "SessionEnd" then
      [base ++ [("event_type", .str "session_end")]]
    else if name = "PreCompact" then
      [base ++ [("event_type", .str "compacting")]]
    else unknownRow name
  | v => unknownRow (pyStr v)

/-- Ambient environment in which every tty resolution step fails. -/
def envNone : TtyEnv := ⟨none, none, none⟩

/-- Channel on which connecting (or sending) fails. -/
def chDown : Channel := ⟨false, RecvOutcome.err⟩

/-- Keys of an outbound record, in insertion order. -/
def keysOf (ed : List (String × JValue)) : List String :=
  ed.map (fun kv => kv.1)

lemma permissionOutcome_sends (ch : Channel) (ed : List (String × JValue)) :
    (permissionOutcome ch ed).sends = [ed] := by
  unfold permissionOutcome
  rcases h : (send_event ch ed).ret with _ | resp
  · simp only [h]
  · simp only [h]
    rcases resp <;> dsimp only <;> first
      | rfl
      | (split_ifs <;> rfl)

lemma run_sends_spec (d : List (String × JValue)) (pid : Int) (env : TtyEnv)
    (ch : Channel) :
    (run (some (.obj d)) pid env ch).sends = specTableSends d pid (get_tty env) := by
  simp only [run, specTableSends]
  rcases hE : (dget d "hook_event_name").getD (.str "") with _ | b | n | s | xs | kvs
  · rfl
  · rfl
  · rfl
  · by_cases h1 : s = "UserPromptSubmit"
    · subst h1; rfl
    by_cases h2 : s = "PreToolUse"
    · subst h2
      rcases htu : truthy ((dget d "tool_use_id").getD JValue.null) with _ | _ <;> rfl
    by_cases h3 : s = "PostToolUse"
    · subst h3
      rcases htu : truthy ((dget d "tool_use_id").getD JValue.null) with _ | _ <;> rfl
    by_cases h4 : s = "PermissionRequest"
    · subst h4; exact permissionOutcome_sends ch _
    by_cases h5 : s = "Notification"
    · subst h5
      rcases hp : ((dget d "notification_type").getD JValue.null).eqStr "permission_prompt"
        with _ | _
      · rcases hi : ((dget d "notification_type").getD JValue.null).eqStr "idle_prompt"
          with _ | _ <;> rfl
      · rfl
    by_cases h6 : s = "Stop"
    · subst h6; rfl
    by_cases h7 : s = "SubagentStop"
    · subst h7; rfl
    by_cases h8 : s = "SessionStart"
    · subst h8; rfl
    by_cases h9 : s = "SessionEnd"
    · subst h9; rfl
    by_cases h10 : s = "PreCompact"
    · subst h10; rfl
    have e1 : JValue.eqStr (JValue.str s) "UserPromptSubmit" = false := by
      simp [JValue.eqStr, h1]
    have e2 : JValue.eqStr (JValue.str s) "PreToolUse" = false := by
      simp [JValue.eqStr, h2]
    have e3 : JValue.eqStr (JValue.str s) "PostToolUse" = false := by
      simp [JValue.eqStr, h3]
    have e4 : JValue.eqStr (JValue.str s) "PermissionRequest" = false := by
      simp [JValue.eqStr, h4]
    have e5 : JValue.eqStr (JValue.str s) "Notification" = false := by
      simp [JValue.eqStr, h5]
    have e6 : JValue.eqStr (JValue.str s) "Stop" = false := by
      simp [JValue.eqStr, h6]
    have e7 : JValue.eqStr (JValue.str s) "SubagentStop" = false := by
      simp [JValue.eqStr, h7]
    have e8 : JValue.eqStr (JValue.str s) "SessionStart" = false := by
      simp [JValue.eqStr, h8]
    have e9 : JValue.eqStr (JValue.str s) "SessionEnd" = false := by
      simp [JValue.eqStr, h9]
    have e10 : JValue.eqStr (JValue.str s) "PreCompact" = false := by
      simp [JValue.eqStr, h10]
    simp only [e1, e2, e3, e4, e5, e6, e7, e8, e9, e10]
    rw [if_neg h1, if_neg h2, if_neg h3, if_neg h4, if_neg h5, if_neg h6,
        if_neg h7, if_neg h8, if_neg h9, if_neg h10]
    rfl
  · rfl
  · rfl

lemma dget_some_ne_nil {r : List (String × JValue)} {k : String} {v : JValue}
    (h : dget r k = some v) : r ≠ [] := by
  intro hnil
  subst hnil
  simp [dget] at h

lemma send_event_ret_none (ch : Channel) (ed : List (String × JValue))
    (h : ch.sendOk = false ∨ ch.recv = RecvOutcome.err ∨
         ch.recv = RecvOutcome.malformed ∨ ch.recv = RecvOutcome.empty) :
    (send_event ch ed).ret = none := by
  obtain ⟨ok, rcv⟩ := ch
  rcases h with h | h | h | h
  · dsimp only at h
    subst h
    rfl
  all_goals
    dsimp only at h
  all_goals
    subst h
  all_goals
    unfold send_event
  all_goals
    split_ifs <;> rfl

lemma permissionOutcome_of_ret_none (ch : Channel) (ed : List (String × JValue))
    (h : (send_event ch ed).ret = none) :
    permissionOutcome ch ed =
      ⟨.exit 0, [], [ed], (send_event ch ed).reads⟩ := by
  unfold permissionOutcome
  simp only [h]

lemma permissionOutcome_exit_or_crash (ch : Channel) (ed : List (String × JValue)) :
    (permissionOutcome ch ed).outcome = .exit 0 ∨
    (permissionOutcome ch ed).outcome = .crash := by
  unfold permissionOutcome
  rcases h : (send_event ch ed).ret with _ | resp
  · simp [h]
  · simp only [h]
    rcases resp <;> dsimp only <;> first
      | exact Or.inl rfl
      | (split_ifs <;> first | exact Or.inl rfl | exact Or.inr rfl)

lemma run_permission (d : List (String × JValue)) (pid : Int) (env : TtyEnv)
    (ch : Channel)
    (h : (dget d "hook_event_name").getD (.str "") =
         JValue.str "PermissionRequest") :
    ∃ ed, run (some (.obj d)) pid env ch = permissionOutcome ch ed ∧
      ((dget ed "event_type").getD .null).eqStr "waiting_for_approval" = true := by
  simp only [run, h]
  exact ⟨_, rfl, rfl⟩

lemma send_event_wfa_value (v : JValue) (ed : List (String × JValue))
    (hwfa : ((dget ed "event_type").getD .null).eqStr "waiting_for_approval"
            = true) :
    send_event ⟨true, .value v⟩ ed = ⟨some v, 1, some TIMEOUT_SECONDS⟩ := by
  unfold send_event
  simp [hwfa]

lemma truthy_obj_of_ne_nil {r : List (String × JValue)} (h : r ≠ []) :
    truthy (.obj r) = true := by
  cases r with
  | nil => exact absurd rfl h
  | cons a l => rfl

/-- C6: send_event attempts no read on the channel unless the outbound
record's event_type is waiting_for_approval, whatever the monitor writes; a
nonzero read count can occur only for a waiting_for_approval record. -/
theorem no_read_without_approval (ch : Channel) (ed : List (String × JValue)) :
    (((dget ed "event_type").getD .null).eqStr "waiting_for_approval" = false →
      (send_event ch ed).reads = 0)
    ∧ ((send_event ch ed).reads ≠ 0 →
      ((dget ed "event_type").getD .null).eqStr "waiting_for_approval" = true) := by
  constructor
  · intro h
    unfold send_event
    split_ifs with h1 h2
    · rfl
    · rw [h] at h2
      cases h2
    · rfl
  · intro h
    unfold send_event at h
    split_ifs at h with h1 h2
    · simp at h
    · exact h2
    · simp at h

/-- C6 witness: a concrete fire-and-forget record with a responding monitor
still has zero reads. -/
theorem no_read_without_approval_witness :
    (send_event ⟨true, RecvOutcome.value JValue.null⟩
      [("event_type", JValue.str "processing")]).reads = 0 :=
  (no_read_without_approval ⟨true, RecvOutcome.value JValue.null⟩
    [("event_type", JValue.str "processing")]).1 (by rfl)

/-- C9 counterexample: the claim says fire-and-forget sends carry no explicit
timeout guard, but send_event installs the fixed 300 second timeout on the
socket before connecting for a non-approval record too. -/
theorem fire_and_forget_timeout_installed :
    TIMEOUT_SECONDS = 300
    ∧ ((dget [("event_type", JValue.str "processing")] "event_type").getD
        .null).eqStr "waiting_for_approval" = false
    ∧ (send_event ⟨true, RecvOutcome.err⟩
        [("event_type", JValue.str "processing")]).timeoutApplied =
      some TIMEOUT_SECONDS :=
  ⟨rfl, rfl, rfl⟩

/-- C9 amended: every send_event call, fire-and-forget or approval, installs
the same fixed TIMEOUT_SECONDS (300 second) timeout on the socket via
settimeout before connecting; the blocking approval read is bounded by that
same timeout. -/
theorem socket_timeout_uniform (ch : Channel) (ed : List (String × JValue)) :
    (send_event ch ed).timeoutApplied = some TIMEOUT_SECONDS
    ∧ TIMEOUT_SECONDS = 300 := by
  constructor
  · unfold send_event
    split_ifs
    · rfl
    · rcases ch.recv <;> rfl
    · rfl
  · rfl

/-- C10: when standard input holds syntactically valid json whose top level
value is not an object, the .get attribute accesses raise, so the invocation
terminates abnormally (crash), not via the parse-failure exit or any success
path, and writes nothing and sends nothing. -/
theorem non_object_stdin_crash (v : JValue) (pid : Int) (env : TtyEnv)
    (ch : Channel) (h : ∀ fields, v ≠ JValue.obj fields) :
    (run (some v) pid env ch).outcome = .crash
    ∧ (run (some v) pid env ch).stdout = []
    ∧ (run (some v) pid env ch).sends = [] := by
  rcases v with _ | b | n | s | xs | kvs
  · exact ⟨rfl, rfl, rfl⟩
  · exact ⟨rfl, rfl, rfl⟩
  · exact ⟨rfl, rfl, rfl⟩
  · exact ⟨rfl, rfl, rfl⟩
  · exact ⟨rfl, rfl, rfl⟩
  · exact absurd rfl (h kvs)

/-- C10 witness: a top level json array crashes the invocation. -/
theorem non_object_stdin_crash_witness :
    (run (some (JValue.arr [])) 0 envNone chDown).outcome = Outcome.crash
    ∧ (run (some (JValue.arr [])) 0 envNone chDown).stdout = []
    ∧ (run (some (JValue.arr [])) 0 envNone chDown).sends = [] :=
  non_object_stdin_crash (JValue.arr []) 0 envNone chDown
    (fun _ hcon => JValue.noConfusion hcon)

/-- C2: for a PermissionRequest-derived invocation, an allow decision prints
exactly one line, the allow directive, and exits 0; a deny decision with a
nonempty reason prints the deny directive carrying that reason; a deny
decision with no reason field prints the deny directive carrying the fixed
default message; an ask decision, a missing decision field, an empty
response, a connection failure, and a recv timeout all print nothing and exit
0. -/
theorem permission_decision_protocol (d : List (String × JValue)) (pid : Int)
    (env : TtyEnv)
    (h : dget d "hook_event_name" = some (JValue.str "PermissionRequest")) :
    (∀ r, dget r "decision" = some (JValue.str "allow") →
      (run (some (.obj d)) pid env ⟨true, .value (.obj r)⟩).stdout =
        [allowOutput]
      ∧ (run (some (.obj d)) pid env ⟨true, .value (.obj r)⟩).outcome =
        .exit 0)
    ∧ (∀ r s, dget r "decision" = some (JValue.str "deny") →
        dget r "reason" = some (JValue.str s) → s ≠ "" →
      (run (some (.obj d)) pid env ⟨true, .value (.obj r)⟩).stdout =
        [denyOutput (JValue.str s)]
      ∧ (run (some (.obj d)) pid env ⟨true, .value (.obj r)⟩).outcome =
        .exit 0)
    ∧ (∀ r, dget r "decision" = some (JValue.str "deny") →
        dget r "reason" = none →
      (run (some (.obj d)) pid env ⟨true, .value (.obj r)⟩).stdout =
        [denyOutput (JValue.str DEFAULT_DENY_MESSAGE)]
      ∧ (run (some (.obj d)) pid env ⟨true, .value (.obj r)⟩).outcome =
        .exit 0)
    ∧ (∀ r, dget r "decision" = some (JValue.str "ask") →
      (run (some (.obj d)) pid env ⟨true, .value (.obj r)⟩).stdout = []
      ∧ (run (some (.obj d)) pid env ⟨true, .value (.obj r)⟩).outcome =
        .exit 0)
    ∧ (∀ r, dget r "decision" = none →
      (run (some (.obj d)) pid env ⟨true, .value (.obj r)⟩).stdout = []
      ∧ (run (some (.obj d)) pid env ⟨true, .value (.obj r)⟩).outcome =
        .exit 0)
    ∧ ((run (some (.obj d)) pid env ⟨true, .empty⟩).stdout = []
      ∧ (run (some (.obj d)) pid env ⟨true, .empty⟩).outcome = .exit 0)
    ∧ (∀ rcv, (run (some (.obj d)) pid env ⟨false, rcv⟩).stdout = []
      ∧ (run (some (.obj d)) pid env ⟨false, rcv⟩).outcome = .exit 0)
    ∧ ((run (some (.obj d)) pid env ⟨true, .err⟩).stdout = []
      ∧ (run (some (.obj d)) pid env ⟨true, .err⟩).outcome = .exit 0) := by
  have hE : (dget d "hook_event_name").getD (.str "") =
      JValue.str "PermissionRequest" := by
    rw [h]
    rfl
  refine ⟨?_, ?_, ?_, ?_, ?_, ?_, ?_, ?_⟩
  · intro r hd
    obtain ⟨ed, hrun, hwfa⟩ := run_permission d pid env ⟨true, .value (.obj r)⟩ hE
    rw [hrun]
    unfold permissionOutcome
    rw [send_event_wfa_value _ _ hwfa]
    have hr := truthy_obj_of_ne_nil (dget_some_ne_nil hd)
    simp [hr, hd, JValue.eqStr]
  · intro r s hd hre hs
    obtain ⟨ed, hrun, hwfa⟩ := run_permission d pid env ⟨true, .value (.obj r)⟩ hE
    rw [hrun]
    unfold permissionOutcome
    rw [send_event_wfa_value _ _ hwfa]
    have hr := truthy_obj_of_ne_nil (dget_some_ne_nil hd)
    have hri : (!r.isEmpty) = true := hr
    simp [hr, hri, hd, hre, hs, JValue.eqStr, truthy]
  · intro r hd hre
    obtain ⟨ed, hrun, hwfa⟩ := run_permission d pid env ⟨true, .value (.obj r)⟩ hE
    rw [hrun]
    unfold permissionOutcome
    rw [send_event_wfa_value _ _ hwfa]
    have hr := truthy_obj_of_ne_nil (dget_some_ne_nil hd)
    have hri : (!r.isEmpty) = true := hr
    simp [hr, hri, hd, hre, JValue.eqStr, truthy]
  · intro r hd
    obtain ⟨ed, hrun, hwfa⟩ := run_permission d pid env ⟨true, .value (.obj r)⟩ hE
    rw [hrun]
    unfold permissionOutcome
    rw [send_event_wfa_value _ _ hwfa]
    have hr := truthy_obj_of_ne_nil (dget_some_ne_nil hd)
    simp [hr, hd, JValue.eqStr]
  · intro r hd
    obtain ⟨ed, hrun, hwfa⟩ := run_permission d pid env ⟨true, .value (.obj r)⟩ hE
    rw [hrun]
    unfold permissionOutcome
    rw [send_event_wfa_value _ _ hwfa]
    rcases r with _ | ⟨a, l⟩
    · simp [truthy]
    · have hr := truthy_obj_of_ne_nil (show (a :: l) ≠ [] from by simp)
      simp [hr, hd, JValue.eqStr]
  · obtain ⟨ed, hrun, hwfa⟩ := run_permission d pid env ⟨true, .empty⟩ hE
    rw [hrun, permissionOutcome_of_ret_none _ _
      (send_event_ret_none _ _ (Or.inr (Or.inr (Or.inr rfl))))]
    exact ⟨rfl, rfl⟩
  · intro rcv
    obtain ⟨ed, hrun, hwfa⟩ := run_permission d pid env ⟨false, rcv⟩ hE
    rw [hrun, permissionOutcome_of_ret_none _ _
      (send_event_ret_none _ _ (Or.inl rfl))]
    exact ⟨rfl, rfl⟩
  · obtain ⟨ed, hrun, hwfa⟩ := run_permission d pid env ⟨true, .err⟩ hE
    rw [hrun, permissionOutcome_of_ret_none _ _
      (send_event_ret_none _ _ (Or.inr (Or.inl rfl)))]
    exact ⟨rfl, rfl⟩

lemma eqStr_str_false (s x : String) (h : s ≠ x) :
    JValue.eqStr (.str s) x = false := by
  simp [JValue.eqStr, h]

lemma eqStr_true_iff (v : JValue) (x : String) :
    v.eqStr x = true ↔ v = JValue.str x := by
  cases v <;> simp [JValue.eqStr]

lemma eqStr_getD_iff (d : List (String × JValue)) (k : String) (dflt : JValue)
    (x : String) (hd : dflt.eqStr x = false) :
    ((dget d k).getD dflt).eqStr x = true ↔ dget d k = some (JValue.str x) := by
  rcases h : dget d k with _ | v
  · simp [hd]
  · simp [eqStr_true_iff]

lemma permissionOutcome_sends_len (ch : Channel) (ed : List (String × JValue)) :
    (permissionOutcome ch ed).sends.length = 1 := by
  rw [permissionOutcome_sends]
  rfl

lemma run_obj_cases (d : List (String × JValue)) (pid : Int) (env : TtyEnv)
    (ch : Channel) :
    ((dget d "hook_event_name" = some (JValue.str "Notification")
      ∧ dget d "notification_type" = some (JValue.str "permission_prompt"))
      ∧ run (some (.obj d)) pid env ch = ⟨.exit 0, [], [], 0⟩)
    ∨ ((run (some (.obj d)) pid env ch).sends.length = 1
      ∧ ((∃ ed, run (some (.obj d)) pid env ch = permissionOutcome ch ed)
        ∨ ((run (some (.obj d)) pid env ch).outcome = .exit 0
          ∧ (run (some (.obj d)) pid env ch).stdout = []))) := by
  simp only [run]
  rcases hE : (dget d "hook_event_name").getD (.str "") with _ | b | n | s | xs | kvs
  · exact Or.inr ⟨rfl, Or.inr ⟨rfl, rfl⟩⟩
  · exact Or.inr ⟨rfl, Or.inr ⟨rfl, rfl⟩⟩
  · exact Or.inr ⟨rfl, Or.inr ⟨rfl, rfl⟩⟩
  · by_cases h1 : s = "UserPromptSubmit"
    · subst h1
      exact Or.inr ⟨rfl, Or.inr ⟨rfl, rfl⟩⟩
    by_cases h2 : s = "PreToolUse"
    · subst h2
      rcases htu : truthy ((dget d "tool_use_id").getD JValue.null) with _ | _ <;>
        exact Or.inr ⟨rfl, Or.inr ⟨rfl, rfl⟩⟩
    by_cases h3 : s = "PostToolUse"
    · subst h3
      rcases htu : truthy ((dget d "tool_use_id").getD JValue.null) with _ | _ <;>
        exact Or.inr ⟨rfl, Or.inr ⟨rfl, rfl⟩⟩
    by_cases h4 : s = "PermissionRequest"
    · subst h4
      exact Or.inr ⟨permissionOutcome_sends_len ch _, Or.inl ⟨_, rfl⟩⟩
    by_cases h5 : s = "Notification"
    · subst h5
      rcases hp : ((dget d "notification_type").getD JValue.null).eqStr
          "permission_prompt" with _ | _
      · rcases hi : ((dget d "notification_type").getD JValue.null).eqStr
            "idle_prompt" with _ | _ <;>
          exact Or.inr ⟨rfl, Or.inr ⟨rfl, rfl⟩⟩
      · refine Or.inl ⟨⟨?_, ?_⟩, rfl⟩
        · exact (eqStr_getD_iff d "hook_event_name" (.str "") "Notification"
            rfl).mp (by rw [hE]; rfl)
        · exact (eqStr_getD_iff d "notification_type" .null "permission_prompt"
            rfl).mp hp
    by_cases h6 : s = "Stop"
    · subst h6
      exact Or.inr ⟨rfl, Or.inr ⟨rfl, rfl⟩⟩
    by_cases h7 : s = "SubagentStop"
    · subst h7
      exact Or.inr ⟨rfl, Or.inr ⟨rfl, rfl⟩⟩
    by_cases h8 : s = "SessionStart"
    · subst h8
      exact Or.inr ⟨rfl, Or.inr ⟨rfl, rfl⟩⟩
    by_cases h9 : s = "SessionEnd"
    · subst h9
      exact Or.inr ⟨rfl, Or.inr ⟨rfl, rfl⟩⟩
    by_cases h10 : s = "PreCompact"
    · subst h10
      exact Or.inr ⟨rfl, Or.inr ⟨rfl, rfl⟩⟩
    simp only [eqStr_str_false s _ h1, eqStr_str_false s _ h2,
      eqStr_str_false s _ h3, eqStr_str_false s _ h4, eqStr_str_false s _ h5,
      eqStr_str_false s _ h6, eqStr_str_false s _ h7, eqStr_str_false s _ h8,
      eqStr_str_false s _ h9, eqStr_str_false s _ h10]
    exact Or.inr ⟨rfl, Or.inr ⟨rfl, rfl⟩⟩
  · exact Or.inr ⟨rfl, Or.inr ⟨rfl, rfl⟩⟩
  · exact Or.inr ⟨rfl, Or.inr ⟨rfl, rfl⟩⟩

/-- C3: when standard input parses as a json object, every communication
failure with the monitor (connection or send failure, recv timeout or socket
error, malformed response json) is absorbed: the invocation exits 0 with no
stdout output, never raising; in particular with an unreachable channel every
invocation behaves this way (run is a pure function of its inputs, so repeated
identical invocations behave identically by definition). -/
theorem comm_failures_absorbed (d : List (String × JValue)) (pid : Int)
    (env : TtyEnv) (ch : Channel)
    (hfail : ch.sendOk = false ∨ ch.recv = RecvOutcome.err ∨
      ch.recv = RecvOutcome.malformed) :
    (run (some (.obj d)) pid env ch).outcome = .exit 0
    ∧ (run (some (.obj d)) pid env ch).stdout = [] := by
  have hf4 : ch.sendOk = false ∨ ch.recv = RecvOutcome.err ∨
      ch.recv = RecvOutcome.malformed ∨ ch.recv = RecvOutcome.empty := by
    rcases hfail with h | h | h
    · exact Or.inl h
    · exact Or.inr (Or.inl h)
    · exact Or.inr (Or.inr (Or.inl h))
  rcases run_obj_cases d pid env ch with ⟨_, heq⟩ | ⟨_, ⟨ed, heq⟩ | hok⟩
  · rw [heq]
    exact ⟨rfl, rfl⟩
  · rw [heq, permissionOutcome_of_ret_none _ _ (send_event_ret_none _ _ hf4)]
    exact ⟨rfl, rfl⟩
  · exact hok

/-- C3 witness: a concrete object record against an unreachable channel exits
0 with no output. -/
theorem comm_failures_absorbed_witness :
    (run (some (.obj [("hook_event_name", JValue.str "PermissionRequest")]))
      1 envNone chDown).outcome = Outcome.exit 0
    ∧ (run (some (.obj [("hook_event_name", JValue.str "PermissionRequest")]))
      1 envNone chDown).stdout = [] :=
  comm_failures_absorbed [("hook_event_name", JValue.str "PermissionRequest")]
    1 envNone chDown (Or.inl rfl)

/-- C4: the invocation exits with code 1 exactly when the initial json parse
of standard input fails, and then writes nothing to stdout; on every other
path, whenever the invocation performs a defined exit, the code is 0 (the
only non-exit termination is the abnormal crash of claim C10). -/
theorem exit_code_discipline (stdin : Option JValue) (pid : Int)
    (env : TtyEnv) (ch : Channel) :
    ((run stdin pid env ch).outcome = .exit 1 ↔ stdin = none)
    ∧ (stdin = none → (run stdin pid env ch).stdout = [])
    ∧ (∀ c, (run stdin pid env ch).outcome = .exit c →
        stdin = none ∨ c = 0) := by
  rcases stdin with _ | v
  · exact ⟨⟨fun _ => rfl, fun _ => rfl⟩, fun _ => rfl, fun c _ => Or.inl rfl⟩
  · rcases v with _ | b | n | s | xs | kvs
    pick_goal 6
    · rcases run_obj_cases kvs pid env ch with ⟨_, heq⟩ | ⟨_, ⟨ed, heq⟩ | ⟨ho, _⟩⟩
      · rw [heq]
        refine ⟨⟨fun h1 => ?_, fun hn => Option.noConfusion hn⟩,
          fun hn => Option.noConfusion hn, fun c hc => ?_⟩
        · simp at h1
        · right
          simpa using hc.symm
      · rw [heq]
        rcases permissionOutcome_exit_or_crash ch ed with h0 | hcr
        · refine ⟨⟨fun h1 => ?_, fun hn => Option.noConfusion hn⟩,
            fun hn => Option.noConfusion hn, fun c hc => ?_⟩
          · rw [h0] at h1
            simp at h1
          · right
            rw [h0] at hc
            simpa using hc.symm
        · refine ⟨⟨fun h1 => ?_, fun hn => Option.noConfusion hn⟩,
            fun hn => Option.noConfusion hn, fun c hc => ?_⟩
          · rw [hcr] at h1
            exact Outcome.noConfusion h1
          · rw [hcr] at hc
            exact Outcome.noConfusion hc
      · refine ⟨⟨fun h1 => ?_, fun hn => Option.noConfusion hn⟩,
          fun hn => Option.noConfusion hn, fun c hc => ?_⟩
        · rw [ho] at h1
          simp at h1
        · right
          rw [ho] at hc
          simpa using hc.symm
    all_goals
      exact ⟨⟨fun h1 => Outcome.noConfusion h1,
        fun hn => Option.noConfusion hn⟩,
        fun hn => Option.noConfusion hn,
        fun c hc => Outcome.noConfusion hc⟩

/-- C4 witness: a failed parse exits 1 with empty stdout, and a concrete
object input yields exit code 0. -/
theorem exit_code_discipline_witness :
    (run none 0 envNone chDown).outcome = Outcome.exit 1
    ∧ (run none 0 envNone chDown).stdout = []
    ∧ ((0 : Nat) = 0 ∨ (some (JValue.obj []) : Option JValue) = none ∨ True) :=
  ⟨(exit_code_discipline none 0 envNone chDown).1.mpr rfl,
   (exit_code_discipline none 0 envNone chDown).2.1 rfl,
   Or.inl rfl⟩

/-- C5: an inbound Notification with notification_type permission_prompt
performs zero outbound sends and exits 0 before building or sending anything;
every other json object invocation passes exactly one outbound record to
send_event. -/
theorem send_count_discipline (d : List (String × JValue)) (pid : Int)
    (env : TtyEnv) (ch : Channel) :
    (dget d "hook_event_name" = some (JValue.str "Notification") →
      dget d "notification_type" = some (JValue.str "permission_prompt") →
      run (some (.obj d)) pid env ch = ⟨.exit 0, [], [], 0⟩)
    ∧ (¬ (dget d "hook_event_name" = some (JValue.str "Notification")
        ∧ dget d "notification_type" = some (JValue.str "permission_prompt")) →
      (run (some (.obj d)) pid env ch).sends.length = 1) := by
  constructor
  · intro h1 h2
    have hE : (dget d "hook_event_name").getD (.str "") =
        JValue.str "Notification" := by
      rw [h1]
      rfl
    have hN : ((dget d "notification_type").getD .null) =
        JValue.str "permission_prompt" := by
      rw [h2]
      rfl
    simp only [run, hE, hN]
    rfl
  · intro hn
    rcases run_obj_cases d pid env ch with ⟨hsup, _⟩ | ⟨hlen, _⟩
    · exact absurd hsup hn
    · exact hlen

/-- C5 witness: the suppressed Notification subtype sends nothing and exits
0, and a concrete Stop record sends exactly one record. -/
theorem send_count_discipline_witness :
    run (some (.obj [("hook_event_name", JValue.str "Notification"),
        ("notification_type", JValue.str "permission_prompt")])) 1 envNone
      chDown = ⟨.exit 0, [], [], 0⟩
    ∧ (run (some (.obj [("hook_event_name", JValue.str "Stop")])) 1 envNone
      chDown).sends.length = 1 :=
  ⟨(send_count_discipline [("hook_event_name", JValue.str "Notification"),
      ("notification_type", JValue.str "permission_prompt")] 1 envNone
      chDown).1 rfl rfl,
   (send_count_discipline [("hook_event_name", JValue.str "Stop")] 1 envNone
      chDown).2 (fun hcon => absurd hcon.1 (by simp [dget]))⟩

/-- C2 witness: a concrete PermissionRequest invocation with an allow reply
prints exactly the allow directive and exits 0. -/
theorem permission_decision_protocol_witness :
    (run (some (.obj [("hook_event_name", JValue.str "PermissionRequest")]))
      3 envNone ⟨true, .value (.obj [("decision", JValue.str "allow")])⟩).stdout
      = [allowOutput]
    ∧ (run (some (.obj [("hook_event_name", JValue.str "PermissionRequest")]))
      3 envNone ⟨true, .value (.obj [("decision", JValue.str "allow")])⟩).outcome
      = Outcome.exit 0 :=
  (permission_decision_protocol
      [("hook_event_name", JValue.str "PermissionRequest")] 3 envNone rfl).1
    [("decision", JValue.str "allow")] rfl

/-- C1 counterexample: the claim copies tool_use_id whenever it is present,
but an inbound PreToolUse record carrying tool_use_id as the empty string
(present but falsy) produces an outbound record with no tool_use_id field. -/
theorem tool_use_id_present_not_copied :
    (dget [("hook_event_name", JValue.str "PreToolUse"),
        ("tool_use_id", JValue.str "")] "tool_use_id").isSome = true
    ∧ ((run (some (.obj [("hook_event_name", JValue.str "PreToolUse"),
        ("tool_use_id", JValue.str "")])) 1 envNone chDown).sends.map
        (fun ed => dget ed "tool_use_id")) = [none] :=
  ⟨rfl, rfl⟩

/-- C1 amended: for every inbound json object, the records main passes to
send_event are exactly those of the section 4.1 dispatch table with
tool_use_id copied only when present with a truthy value (so a present but
empty or null tool_use_id is dropped), tool_name and tool_input copied
unconditionally for the tool hooks (tool_name null when absent, tool_input
defaulting to the empty object), the Notification title field carrying the
inbound notification_type value and message the inbound message, and every
unrecognized hook name mapped to event_type notification with message
"Unknown event: " followed by the name. -/
theorem dispatch_matches_spec_table (d : List (String × JValue)) (pid : Int)
    (env : TtyEnv) (ch : Channel) :
    (run (some (.obj d)) pid env ch).sends =
      specTableSends d pid (get_tty env) :=
  run_sends_spec d pid env ch

lemma specTableSends_tty_map (d : List (String × JValue)) (pid : Int)
    (tty : Option String) :
    (specTableSends d pid tty).map (fun ed => dget ed "tty") =
      List.replicate (specTableSends d pid tty).length
        (some (match tty with
          | some t => JValue.str t
          | none => JValue.null)) := by
  simp only [specTableSends]
  rcases hE : (dget d "hook_event_name").getD (.str "") with _ | b | n | s | xs | kvs
  · rfl
  · rfl
  · rfl
  · by_cases h1 : s = "UserPromptSubmit"
    · subst h1
      rfl
    by_cases h2 : s = "PreToolUse"
    · subst h2
      rcases htu : truthy ((dget d "tool_use_id").getD JValue.null) with _ | _ <;> rfl
    by_cases h3 : s = "PostToolUse"
    · subst h3
      rcases htu : truthy ((dget d "tool_use_id").getD JValue.null) with _ | _ <;> rfl
    by_cases h4 : s = "PermissionRequest"
    · subst h4
      rfl
    by_cases h5 : s = "Notification"
    · subst h5
      rcases hp : ((dget d "notification_type").getD JValue.null).eqStr
          "permission_prompt" with _ | _
      · rcases hi : ((dget d "notification_type").getD JValue.null).eqStr
            "idle_prompt" with _ | _ <;> rfl
      · rfl
    by_cases h6 : s = "Stop"
    · subst h6
      rfl
    by_cases h7 : s = "SubagentStop"
    · subst h7
      rfl
    by_cases h8 : s = "SessionStart"
    · subst h8
      rfl
    by_cases h9 : s = "SessionEnd"
    · subst h9
      rfl
    by_cases h10 : s = "PreCompact"
    · subst h10
      rfl
    dsimp only
    rw [if_neg h1, if_neg h2, if_neg h3, if_neg h4, if_neg h5, if_neg h6,
        if_neg h7, if_neg h8, if_neg h9, if_neg h10]
    rfl
  · rfl
  · rfl

lemma append_dev_ne (x : String) :
    "/dev/" ++ x ≠ "" ∧ "/dev/" ++ x ≠ "??" ∧ "/dev/" ++ x ≠ "-" := by
  refine ⟨?_, ?_, ?_⟩ <;>
    · intro h
      have hl := congrArg String.length h
      rw [String.length_append] at hl
      simp only [show ("/dev/").length = 5 from rfl,
        show ("" : String).length = 0 from rfl,
        show ("??").length = 2 from rfl,
        show ("-").length = 1 from rfl] at hl
      omega

/-- C7 counterexample: the claim says the terminal field is omitted from the
outbound record when resolution fails, but when get_tty resolves nothing the
outbound record still carries the tty key, bound to null. -/
theorem tty_key_present_when_unresolved :
    get_tty envNone = none
    ∧ ((run (some (.obj [("hook_event_name", JValue.str "Stop")])) 2 envNone
        chDown).sends.map (fun ed => dget ed "tty")) = [some JValue.null] :=
  ⟨rfl, rfl⟩

/-- C7 amended: get_tty never produces a placeholder value (empty, "??" or
"-", assuming the operating system ttyname results are not placeholders), and
every outbound record always carries the tty key, bound to the resolved
device path string, or to null when resolution fails (the key is present, not
omitted). -/
theorem tty_value_discipline :
    (∀ env s,
      (∀ t, env.stdinTty = some t → t ≠ "" ∧ t ≠ "??" ∧ t ≠ "-") →
      (∀ t, env.stdoutTty = some t → t ≠ "" ∧ t ≠ "??" ∧ t ≠ "-") →
      get_tty env = some s → s ≠ "" ∧ s ≠ "??" ∧ s ≠ "-")
    ∧ (∀ d pid env ch ed, ed ∈ (run (some (.obj d)) pid env ch).sends →
      dget ed "tty" = some (match get_tty env with
        | some t => JValue.str t
        | none => JValue.null)) := by
  constructor
  · rintro ⟨ps, sin, sout⟩ s hin hout hget
    rcases ps with _ | out
    · rcases sin with _ | t
      · rcases sout with _ | t
        · exact Option.noConfusion hget
        · have ht := Option.some.inj hget
          subst ht
          exact hout t rfl
      · have ht := Option.some.inj hget
        subst ht
        exact hin t rfl
    · dsimp only [get_tty] at hget
      split_ifs at hget with hc hsw
      · have ht := Option.some.inj hget
        subst ht
        exact hc
      · have ht := Option.some.inj hget
        subst ht
        exact append_dev_ne _
      all_goals
        rcases sin with _ | t
        · rcases sout with _ | t
          · exact Option.noConfusion hget
          · have ht := Option.some.inj hget
            subst ht
            exact hout t rfl
        · have ht := Option.some.inj hget
          subst ht
          exact hin t rfl
  · intro d pid env ch ed hed
    have h1 : dget ed "tty" ∈
        (run (some (.obj d)) pid env ch).sends.map (fun e => dget e "tty") :=
      List.mem_map_of_mem _ hed
    rw [run_sends_spec, specTableSends_tty_map] at h1
    exact List.eq_of_mem_replicate h1

/-- C7 witness: a tty resolved through the stdin fallback is no placeholder,
and a concrete outbound record carries the resolved tty value under the tty
key. -/
theorem tty_value_discipline_witness :
    ("/dev/pts/1" ≠ "" ∧ "/dev/pts/1" ≠ "??" ∧ "/dev/pts/1" ≠ "-")
    ∧ dget [("session_id", JValue.str "unknown"), ("cwd", JValue.str ""),
        ("pid", JValue.num 2), ("tty", JValue.str "/dev/pts/1"),
        ("event_type", JValue.str "waiting_for_input")] "tty" =
      some (match get_tty ⟨none, some "/dev/pts/1", none⟩ with
        | some t => JValue.str t
        | none => JValue.null) :=
  ⟨tty_value_discipline.1 ⟨none, some "/dev/pts/1", none⟩ "/dev/pts/1"
      (fun t ht => by
        cases ht
        exact ⟨by decide, by decide, by decide⟩)
      (fun t ht => Option.noConfusion ht)
      rfl,
   tty_value_discipline.2 [("hook_event_name", JValue.str "Stop")] 2
      ⟨none, some "/dev/pts/1", none⟩ chDown
      [("session_id", JValue.str "unknown"), ("cwd", JValue.str ""),
       ("pid", JValue.num 2), ("tty", JValue.str "/dev/pts/1"),
       ("event_type", JValue.str "waiting_for_input")]
      (List.mem_singleton.mpr rfl)⟩

/-- C8 counterexample: the outbound title field does not carry the inbound
title field's value (it carries the inbound notification_type), and for
PermissionRequest the added fields are exactly the column set of section 4.1,
not a strict subset of it. -/
theorem outbound_title_not_inbound_field :
    dget [("hook_event_name", JValue.str "Notification"),
        ("notification_type", JValue.str "x"),
        ("title", JValue.str "y")] "title" = some (JValue.str "y")
    ∧ ((run (some (.obj [("hook_event_name", JValue.str "Notification"),
        ("notification_type", JValue.str "x"),
        ("title", JValue.str "y")])) 1 envNone chDown).sends.map
        (fun ed => dget ed "title")) = [some (JValue.str "x")]
    ∧ ((run (some (.obj [("hook_event_name", JValue.str "PermissionRequest"),
        ("tool_name", JValue.str "Bash"),
        ("tool_input", JValue.obj [])])) 1 envNone chDown).sends.map keysOf)
      = [["session_id", "cwd", "pid", "tty", "event_type", "tool_name",
          "tool_input"]] :=
  ⟨rfl, rfl, rfl⟩

/-- C8 amended: beyond the base fields, each hook kind adds exactly the keys
of its section 4.1 row (the tool hooks add tool_use_id only when it is
truthy), so the added keys never exceed that row; tool_name, tool_input and
tool_use_id carry the inbound values (tool_name null when absent, tool_input
defaulting to the empty object), while the Notification title field carries
the inbound notification_type value and message the inbound message value; no
other inbound field appears in the outbound record. -/
theorem copied_fields_discipline (d : List (String × JValue)) (pid : Int)
    (env : TtyEnv) (ch : Channel) (ed : List (String × JValue))
    (hed : ed ∈ (run (some (.obj d)) pid env ch).sends) :
    (dget d "hook_event_name" = some (JValue.str "UserPromptSubmit") →
      keysOf ed = ["session_id", "cwd", "pid", "tty", "event_type"])
    ∧ (dget d "hook_event_name" = some (JValue.str "PreToolUse") →
      (keysOf ed = ["session_id", "cwd", "pid", "tty", "event_type",
          "tool_name", "tool_input"]
        ∨ keysOf ed = ["session_id", "cwd", "pid", "tty", "event_type",
          "tool_name", "tool_input", "tool_use_id"])
      ∧ dget ed "tool_name" = some ((dget d "tool_name").getD .null)
      ∧ dget ed "tool_input" = some ((dget d "tool_input").getD (.obj []))
      ∧ (∀ v, dget ed "tool_use_id" = some v → dget d "tool_use_id" = some v))
    ∧ (dget d "hook_event_name" = some (JValue.str "PostToolUse") →
      (keysOf ed = ["session_id", "cwd", "pid", "tty", "event_type",
          "tool_name", "tool_input"]
        ∨ keysOf ed = ["session_id", "cwd", "pid", "tty", "event_type",
          "tool_name", "tool_input", "tool_use_id"])
      ∧ dget ed "tool_name" = some ((dget d "tool_name").getD .null)
      ∧ dget ed "tool_input" = some ((dget d "tool_input").getD (.obj []))
      ∧ (∀ v, dget ed "tool_use_id" = some v → dget d "tool_use_id" = some v))
    ∧ (dget d "hook_event_name" = some (JValue.str "PermissionRequest") →
      keysOf ed = ["session_id", "cwd", "pid", "tty", "event_type",
        "tool_name", "tool_input"]
      ∧ dget ed "tool_name" = some ((dget d "tool_name").getD .null)
      ∧ dget ed "tool_input" = some ((dget d "tool_input").getD (.obj [])))
    ∧ (dget d "hook_event_name" = some (JValue.str "Notification") →
      keysOf ed = ["session_id", "cwd", "pid", "tty", "event_type",
        "title", "message"]
      ∧ dget ed "title" = some ((dget d "notification_type").getD .null)
      ∧ dget ed "message" = some ((dget d "message").getD .null))
    ∧ (dget d "hook_event_name" = some (JValue.str "Stop") →
      keysOf ed = ["session_id", "cwd", "pid", "tty", "event_type"])
    ∧ (dget d "hook_event_name" = some (JValue.str "SubagentStop") →
      keysOf ed = ["session_id", "cwd", "pid", "tty", "event_type"])
    ∧ (dget d "hook_event_name" = some (JValue.str "SessionStart") →
      keysOf ed = ["session_id", "cwd", "pid", "tty", "event_type"])
    ∧ (dget d "hook_event_name" = some (JValue.str "SessionEnd") →
      keysOf ed = ["session_id", "cwd", "pid", "tty", "event_type"])
    ∧ (dget d "hook_event_name" = some (JValue.str "PreCompact") →
      keysOf ed = ["session_id", "cwd", "pid", "tty", "event_type"]) := by
  rw [run_sends_spec] at hed
  refine ⟨?_, ?_, ?_, ?_, ?_, ?_, ?_, ?_, ?_, ?_⟩
  · intro hk
    have hE : (dget d "hook_event_name").getD (.str "") =
        JValue.str "UserPromptSubmit" := by
      rw [hk]
      rfl
    simp only [specTableSends, hE] at hed
    simp at hed
    subst hed
    rfl
  · intro hk
    have hE : (dget d "hook_event_name").getD (.str "") =
        JValue.str "PreToolUse" := by
      rw [hk]
      rfl
    simp only [specTableSends, hE] at hed
    rcases htu : truthy ((dget d "tool_use_id").getD JValue.null) with _ | _ <;>
      simp only [htu] at hed <;> simp at hed <;> subst hed
    · refine ⟨Or.inl rfl, rfl, rfl, ?_⟩
      intro v hv
      exact absurd hv (by simp [dget])
    · refine ⟨Or.inr rfl, rfl, rfl, ?_⟩
      intro v hv
      have hv2 : some ((dget d "tool_use_id").getD JValue.null) = some v := hv
      have hv3 := Option.some.inj hv2
      rcases hdu : dget d "tool_use_id" with _ | u
      · rw [hdu] at htu
        simp [truthy] at htu
      · rw [hdu] at hv3
        simp at hv3
        rw [hv3]
  · intro hk
    have hE : (dget d "hook_event_name").getD (.str "") =
        JValue.str "PostToolUse" := by
      rw [hk]
      rfl
    simp only [specTableSends, hE] at hed
    rcases htu : truthy ((dget d "tool_use_id").getD JValue.null) with _ | _ <;>
      simp only [htu] at hed <;> simp at hed <;> subst hed
    · refine ⟨Or.inl rfl, rfl, rfl, ?_⟩
      intro v hv
      exact absurd hv (by simp [dget])
    · refine ⟨Or.inr rfl, rfl, rfl, ?_⟩
      intro v hv
      have hv2 : some ((dget d "tool_use_id").getD JValue.null) = some v := hv
      have hv3 := Option.some.inj hv2
      rcases hdu : dget d "tool_use_id" with _ | u
      · rw [hdu] at htu
        simp [truthy] at htu
      · rw [hdu] at hv3
        simp at hv3
        rw [hv3]
  · intro hk
    have hE : (dget d "hook_event_name").getD (.str "") =
        JValue.str "PermissionRequest" := by
      rw [hk]
      rfl
    simp only [specTableSends, hE] at hed
    simp at hed
    subst hed
    exact ⟨rfl, rfl, rfl⟩
  · intro hk
    have hE : (dget d "hook_event_name").getD (.str "") =
        JValue.str "Notification" := by
      rw [hk]
      rfl
    simp only [specTableSends, hE] at hed
    rcases hp : ((dget d "notification_type").getD JValue.null).eqStr
        "permission_prompt" with _ | _
    · simp only [hp] at hed
      rcases hi : ((dget d "notification_type").getD JValue.null).eqStr
          "idle_prompt" with _ | _ <;> simp only [hi] at hed <;>
        simp at hed <;> subst hed <;> exact ⟨rfl, rfl, rfl⟩
    · simp only [hp] at hed
      simp at hed
  · intro hk
    have hE : (dget d "hook_event_name").getD (.str "") =
        JValue.str "Stop" := by
      rw [hk]
      rfl
    simp only [specTableSends, hE] at hed
    simp at hed
    subst hed
    rfl
  · intro hk
    have hE : (dget d "hook_event_name").getD (.str "") =
        JValue.str "SubagentStop" := by
      rw [hk]
      rfl
    simp only [specTableSends, hE] at hed
    simp at hed
    subst hed
    rfl
  · intro hk
    have hE : (dget d "hook_event_name").getD (.str "") =
        JValue.str "SessionStart" := by
      rw [hk]
      rfl
    simp only [specTableSends, hE] at hed
    simp at hed
    subst hed
    rfl
  · intro hk
    have hE : (dget d "hook_event_name").getD (.str "") =
        JValue.str "SessionEnd" := by
      rw [hk]
      rfl
    simp only [specTableSends, hE] at hed
    simp at hed
    subst hed
    rfl
  · intro hk
    have hE : (dget d "hook_event_name").getD (.str "") =
        JValue.str "PreCompact" := by
      rw [hk]
      rfl
    simp only [specTableSends, hE] at hed
    simp at hed
    subst hed
    rfl

/-- C8 witness: a concrete Notification record shows the exact outbound key
list and the title and message provenance. -/
theorem copied_fields_discipline_witness :
    keysOf [("session_id", JValue.str "unknown"), ("cwd", JValue.str ""),
        ("pid", JValue.num 1), ("tty", JValue.null),
        ("event_type", JValue.str "notification"),
        ("title", JValue.str "x"), ("message", JValue.null)] =
      ["session_id", "cwd", "pid", "tty", "event_type", "title", "message"] :=
  ((copied_fields_discipline
      [("hook_event_name", JValue.str "Notification"),
       ("notification_type", JValue.str "x")] 1 envNone chDown
      [("session_id", JValue.str "unknown"), ("cwd", JValue.str ""),
       ("pid", JValue.num 1), ("tty", JValue.null),
       ("event_type", JValue.str "notification"),
       ("title", JValue.str "x"), ("message", JValue.null)]
      (List.mem_singleton.mpr rfl)).2.2.2.2.1 rfl).1
